import Mathlib

/-!
Verification of the odc-stats WOfS plugins (src/odc/stats/plugins/wofs.py)
and of the run-pq / save-tasks CLI control flow
(src/odc/stats/_cli_run_pq.py, src/odc/stats/_cli_save_tasks.py).

Raster operations in the plugins act pixelwise; the time dimension is the
only one reduced over. The embedding therefore works at a single pixel:
a raster band becomes one value, a time stack becomes a list of per-time
values, and `.sum(axis=0)` / `.all(axis=0)` become list folds.
-/

/-- Wrap an integer into the numpy `int16` range, as numpy does when summing
or casting with `dtype="int16"`. -/
def wrap16 (n : Int) : Int := (n + 32768) % 65536 - 32768

/-- Numpy implicit bool-to-int conversion used by `.sum` over boolean arrays. -/
def boolToInt (b : Bool) : Int := if b then 1 else 0

/-- The external collaborator `odc.algo.safe_div` at one pixel: floating
division of the two count bands, with NaN where the denominator is zero.
NaN is modelled as `none`; the quotient is modelled exactly. -/
def safe_div (a b : Int) : Option ℚ :=
  if b = 0 then none else some ((a : ℚ) / (b : ℚ))

/-- The external collaborator `odc.algo.keep_good_only` at one pixel: keep
the value where the mask holds, stamp the band's nodata value elsewhere. -/
def keep_good_only (x : Int) (ok : Bool) (nodata : Int) : Int :=
  if ok then x else nodata

/-- A per-pixel band value of an output dataset: an `int16` band, or a
`float32` band whose NaN is modelled as `none`. -/
inductive Band where
  | i16 : Int → Band
  | f32 : Option ℚ → Band
deriving DecidableEq, Repr

/-- Per-pixel view of an `xr.Dataset` as built by `xr.Dataset(dict(...))`:
an ordered association list of band names to band values. -/
abbrev Dataset := List (String × Band)

/-- The per-pixel boolean layers produced by `StatsWofs.native_transform`
and consumed by `StatsWofs.fuser` / `StatsWofs.reduce`. -/
structure WoLayer where
  bad : Bool
  some : Bool
  dry : Bool
  wet : Bool
deriving DecidableEq, Repr

/-- `StatsWofs.native_transform` at one pixel, in the default `dilation = 0`
configuration (`binary_dilation` is a spatial operation and is only applied
when a nonzero dilation is requested). `water` is the uint8 classifier
bitmask. `bad` is `(water & 0b0111_1110) > 0`; `some` is
`((water << 30) >> 30) == 0`, i.e. the two low bits (nodata,
non-contiguous) are clear; `dry` is `water == 0`; `wet` is `water == 128`. -/
def StatsWofs.native_transform (water : Nat) : WoLayer where
  bad := decide (water &&& 0b01111110 ≠ 0)
  some := decide (water % 4 = 0)
  dry := decide (water = 0)
  wet := decide (water = 128)

/-- The external collaborator `odc.algo._masking._or_fuser` on the boolean
layers of one acquisition day: logical OR across the grouped observations,
band by band. -/
def or_fuser (xs : List WoLayer) : WoLayer where
  bad := xs.any (fun l => l.bad)
  some := xs.any (fun l => l.some)
  dry := xs.any (fun l => l.dry)
  wet := xs.any (fun l => l.wet)

/-- `StatsWofs.fuser` at one pixel: merge everything with OR first, then make
the wet/dry/bad bits exclusive (`wet & ~dry & ~bad`, `dry & ~wet & ~bad`). -/
def StatsWofs.fuser (xs : List WoLayer) : WoLayer :=
  let xx := or_fuser xs
  { bad := xx.bad
    some := xx.some
    dry := xx.dry && !xx.wet && !xx.bad
    wet := xx.wet && !xx.dry && !xx.bad }

/-- `count_some = xx.some.sum(axis=0, dtype="int16")` at one pixel. -/
def StatsWofs.count_some (stack : List WoLayer) : Int :=
  wrap16 (stack.map (fun l => boolToInt l.some)).sum

/-- `count_wet = xx.wet.sum(axis=0, dtype="int16")` at one pixel. -/
def StatsWofs.count_wet (stack : List WoLayer) : Int :=
  wrap16 (stack.map (fun l => boolToInt l.wet)).sum

/-- `count_dry = xx.dry.sum(axis=0, dtype="int16")` at one pixel. -/
def StatsWofs.count_dry (stack : List WoLayer) : Int :=
  wrap16 (stack.map (fun l => boolToInt l.dry)).sum

/-- `count_clear = count_wet + count_dry` (int16 addition) at one pixel. -/
def StatsWofs.count_clear (stack : List WoLayer) : Int :=
  wrap16 (StatsWofs.count_wet stack + StatsWofs.count_dry stack)

/-- `frequency = safe_div(count_wet, count_clear, dtype="float32")`. -/
def StatsWofs.frequency (stack : List WoLayer) : Option ℚ :=
  safe_div (StatsWofs.count_wet stack) (StatsWofs.count_clear stack)

/-- `is_ok = count_some > 0` at one pixel. -/
def StatsWofs.is_ok (stack : List WoLayer) : Bool :=
  decide (0 < StatsWofs.count_some stack)

/-- `StatsWofs.reduce` at one pixel: compute the counts and the frequency,
then stamp the nodata sentinel `-999` into the count bands wherever no
contributing observation was non-missing (`keep_good_only` with `is_ok`). -/
def StatsWofs.reduce (stack : List WoLayer) : Dataset :=
  [("count_wet",
     Band.i16 (keep_good_only (StatsWofs.count_wet stack) (StatsWofs.is_ok stack) (-999))),
   ("count_clear",
     Band.i16 (keep_good_only (StatsWofs.count_clear stack) (StatsWofs.is_ok stack) (-999))),
   ("frequency", Band.f32 (StatsWofs.frequency stack))]

/-- `StatsWofs.measurements`: the declared output band names, in order. -/
def StatsWofs.measurements : List String :=
  ["count_wet", "count_clear", "frequency"]

/-- One per-time input slice of `StatsWofsFullHistory.reduce` at one pixel:
the `count_wet` and `count_clear` bands of an existing annual summary.
Both are stored as `int16` on disk. -/
structure WoSummarySlice where
  count_wet : Int
  count_clear : Int
deriving DecidableEq, Repr

/-- `missing = (xx.count_clear == xx.count_clear.nodata).all(axis=0)` at one
pixel: every `count_clear` slice equals the band's nodata attribute. -/
def StatsWofsFullHistory.missing (nodata : Int) (stack : List WoSummarySlice) : Bool :=
  stack.all (fun s => decide (s.count_clear = nodata))

/-- `cc`: the `where(count_clear==nodata, 0, count_clear)` numexpr (cast to
`int16`, compared against `dtype.type(nodata)`) summed over time with
`dtype="int16"`, at one pixel. -/
def StatsWofsFullHistory.cc (nodata : Int) (stack : List WoSummarySlice) : Int :=
  wrap16 (stack.map
    (fun s => wrap16 (if s.count_clear = wrap16 nodata then 0 else s.count_clear))).sum

/-- `cw`: the `where(count_wet==nodata, 0, count_wet)` numexpr summed over
time with `dtype="int16"`, at one pixel (the nodata used is the
`count_clear` band's, as in the source). -/
def StatsWofsFullHistory.cw (nodata : Int) (stack : List WoSummarySlice) : Int :=
  wrap16 (stack.map
    (fun s => wrap16 (if s.count_wet = wrap16 nodata then 0 else s.count_wet))).sum

/-- `frequency = where(cc==0, nan, (1.0*cw)/(1.0*cc))` at one pixel, with
NaN modelled as `none` and the float32 quotient modelled exactly. -/
def StatsWofsFullHistory.frequency (nodata : Int) (stack : List WoSummarySlice) : Option ℚ :=
  if StatsWofsFullHistory.cc nodata stack = 0 then none
  else some ((StatsWofsFullHistory.cw nodata stack : ℚ) /
             (StatsWofsFullHistory.cc nodata stack : ℚ))

/-- `StatsWofsFullHistory.reduce` at one pixel, parameterised by the input
`count_clear` band's nodata attribute: sum the non-nodata counts, compute
the frequency, then re-insert `nodata` (cast to the `int16` dtype) into both
count bands wherever `missing` holds. The dataset is built in the source's
dict order `count_clear, count_wet, frequency`. -/
def StatsWofsFullHistory.reduce (nodata : Int) (stack : List WoSummarySlice) : Dataset :=
  [("count_clear",
     Band.i16 (if StatsWofsFullHistory.missing nodata stack then wrap16 nodata
               else StatsWofsFullHistory.cc nodata stack)),
   ("count_wet",
     Band.i16 (if StatsWofsFullHistory.missing nodata stack then wrap16 nodata
               else StatsWofsFullHistory.cw nodata stack)),
   ("frequency", Band.f32 (StatsWofsFullHistory.frequency nodata stack))]

/-- `StatsWofsFullHistory.measurements`: the declared output band names. -/
def StatsWofsFullHistory.measurements : List String :=
  ["count_wet", "count_clear", "frequency"]

/-- Result record for one executed task (`odc.stats.model.TaskResult`),
holding the task (abstracted to an identifier), the resolved output URI and
the `skipped` flag. -/
structure TaskResult where
  task : Nat
  uri : String
  skipped : Bool
deriving DecidableEq, Repr

/-- The output sink (`S3COGSink`) as run-pq uses it per task: a pure URI
derivation and a remote existence check (`sink.exists`). -/
structure Sink where
  uri : Nat → String
  exists_check : Nat → Bool

/-- `dry_run_proc` from `run_pq` at one task: derive the URI, perform the
existence check only when `check_s3` is set (run-pq passes
`check_s3 = not overwrite`), and mark the task skipped exactly when
overwrite is off and the check returned true. No write ever occurs on this
path. -/
def dry_run_proc (overwrite : Bool) (sink : Sink) (check_s3 : Bool)
    (task : Nat) : TaskResult :=
  let uri := sink.uri task
  let ex : Option Bool := if check_s3 then some (sink.exists_check task) else none
  let skipped : Bool := if overwrite then false else decide (ex = some true)
  { task := task, uri := uri, skipped := skipped }

/-- Modelled from the spec: the per-task behaviour of `process_tasks`
(`odc.stats.proc`), which is not among the provided sources. Spec section
4.4: if the existence check returns true and overwrite was not requested,
the task is marked `skipped=True` and no write occurs; otherwise the output
is written and the result has `skipped=False`. `run_pq` passes
`check_exists = not overwrite`. Returns the task's result together with
whether a write occurred. -/
def process_one_task (check_exists : Bool) (sink : Sink) (task : Nat) :
    TaskResult × Bool :=
  if check_exists && sink.exists_check task then
    ({ task := task, uri := sink.uri task, skipped := true }, false)
  else
    ({ task := task, uri := sink.uri task, skipped := false }, true)

/-- Python's `str.startswith`, on the character lists of the strings. -/
def startswith (s pre : String) : Bool := pre.toList.isPrefixOf s.toList

/-- Observable outcome of one `run_pq` invocation: the exit code (`none`
means the command was not terminated by `sys.exit`), whether the
`S3COGSink` was constructed, which tasks were selected for processing, and
whether any task was actually processed. -/
structure RunPqOutcome where
  exitCode : Option Nat
  sinkCreated : Bool
  tasksSelected : List Nat
  anyTaskProcessed : Bool
deriving DecidableEq, Repr

/-- Control flow of `run_pq` around task selection, sink creation and
credential verification. `parse_tasks` models `parse_all_tasks` from
`odc.stats._cli_common` (not among the provided sources) as an oracle: the
source only catches its `ValueError` (`Except.error`) and exits with code 1.
`allTiles` is `rdr.all_tiles`, the catalog's full tile list in order;
`productLocation` is `product.location`; `credsOk` is the result of
`sink.verify_s3_credentials()`. -/
def run_pq (selectors : List String)
    (parse_tasks : List String → Except String (List Nat))
    (allTiles : List Nat) (productLocation : String) (credsOk : Bool) :
    RunPqOutcome :=
  let sel : Except String (List Nat) :=
    if selectors = [] then Except.ok allTiles else parse_tasks selectors
  match sel with
  | Except.error _ =>
      { exitCode := some 1, sinkCreated := false
        tasksSelected := [], anyTaskProcessed := false }
  | Except.ok ts =>
      if startswith productLocation "s3:" && !credsOk then
        { exitCode := some 2, sinkCreated := true
          tasksSelected := ts, anyTaskProcessed := false }
      else
        { exitCode := none, sinkCreated := true
          tasksSelected := ts, anyTaskProcessed := decide (ts ≠ []) }

/-- Which predicate `save_tasks` passes to `SaveTasks.save`. -/
inductive PredChoice where
  | noPredicate
  | gqaPred
  | collectionCategoryPred
deriving DecidableEq, Repr

/-- The command-line options of `save-tasks` that drive its control flow. -/
structure SaveTasksInput where
  year : Option Int
  temporal_range : Option String
  frequency : Option String
  dataset_filter : Option String
  gqa : Option ℚ
  usgs_collection_category : Option String

/-- The external collaborators `save_tasks` calls into, as oracles:
`json.loads` on the dataset filter, the `DateTimeRange` constructor, the
`SaveTasks` constructor (which may raise `ValueError`), and
`tasks.save` (which may raise `ValueError` or return a success flag). -/
structure SaveTasksEnv where
  jsonParseOk : String → Bool
  dtrParseOk : String → Bool
  saveTasksCtorOk : Bool
  saveRaises : Bool
  saveOk : Bool

/-- Observable outcome of one `save_tasks` invocation: the exit code
(`none` means normal completion), whether the `Datacube` catalog connection
was constructed, whether `SaveTasks.save` was invoked, and with which
predicate. -/
structure SaveTasksOutcome where
  exitCode : Option Nat
  datacubeConstructed : Bool
  saveCalled : Bool
  predicateUsed : Option PredChoice
deriving DecidableEq, Repr

/-- The valid `--frequency` values accepted by `save_tasks`. -/
def validFrequency (f : String) : Bool :=
  ["annual", "annual-fy", "semiannual", "seasonal", "nov-mar", "apr-oct", "all"].contains f

/-- Control flow of `save_tasks`, in the source's statement order:
`json.loads` of `--dataset-filter` (an uncaught exception on a malformed
value terminates the interpreter with exit code 1), the `--year` /
`--temporal-range` conflict check (exit 1), temporal-range parsing (exit 1),
the frequency whitelist (exit 1), the `SaveTasks` constructor (exit 1 on
`ValueError`), predicate selection (a later assignment shadows an earlier
one, as in the source), then `Datacube(env=env)` and `tasks.save(...)`
(exit 2 on `ValueError`, exit 3 when it returns a failure flag). The
defaulting of the output filename does not affect these observables and is
not tracked. -/
def save_tasks (env : SaveTasksEnv) (inp : SaveTasksInput) : SaveTasksOutcome :=
  if inp.dataset_filter.any (fun s => !env.jsonParseOk s) then
    { exitCode := some 1, datacubeConstructed := false
      saveCalled := false, predicateUsed := none }
  else if inp.temporal_range.isSome && inp.year.isSome then
    { exitCode := some 1, datacubeConstructed := false
      saveCalled := false, predicateUsed := none }
  else if inp.temporal_range.any (fun t => !env.dtrParseOk t) then
    { exitCode := some 1, datacubeConstructed := false
      saveCalled := false, predicateUsed := none }
  else if inp.frequency.any (fun f => !validFrequency f) then
    { exitCode := some 1, datacubeConstructed := false
      saveCalled := false, predicateUsed := none }
  else if !env.saveTasksCtorOk then
    { exitCode := some 1, datacubeConstructed := false
      saveCalled := false, predicateUsed := none }
  else
    let predicate := PredChoice.noPredicate
    let predicate := if inp.gqa.isSome then PredChoice.gqaPred else predicate
    let predicate :=
      if inp.usgs_collection_category.isSome then PredChoice.collectionCategoryPred
      else predicate
    if env.saveRaises then
      { exitCode := some 2, datacubeConstructed := true
        saveCalled := true, predicateUsed := some predicate }
    else if !env.saveOk then
      { exitCode := some 3, datacubeConstructed := true
        saveCalled := true, predicateUsed := some predicate }
    else
      { exitCode := none, datacubeConstructed := true
        saveCalled := true, predicateUsed := some predicate }

/-! ### Helper lemmas -/

/-- `List.any` is invariant under permutation of the list. -/
lemma any_perm_invariant {α : Type} (p : α → Bool) {xs ys : List α}
    (h : xs.Perm ys) : xs.any p = ys.any p := by
  induction h with
  | nil => rfl
  | cons x _ ih => simp [List.any_cons, ih]
  | swap x y l => simp only [List.any_cons]; cases p x <;> cases p y <;> simp
  | trans _ _ ih1 ih2 => rw [ih1, ih2]

/-- The OR-fuse of one day's observations is invariant under permutation. -/
lemma or_fuser_perm_invariant {xs ys : List WoLayer} (h : xs.Perm ys) :
    or_fuser xs = or_fuser ys := by
  simp only [or_fuser, WoLayer.mk.injEq]
  exact ⟨any_perm_invariant _ h, any_perm_invariant _ h,
    any_perm_invariant _ h, any_perm_invariant _ h⟩

/-- A wet pixel of `native_transform` output always has data
(`water = 128` implies the two low bits are clear). -/
lemma native_transform_wet_some (w : Nat)
    (h : (StatsWofs.native_transform w).wet = true) :
    (StatsWofs.native_transform w).some = true := by
  simp only [StatsWofs.native_transform, decide_eq_true_eq] at h ⊢
  subst h
  decide

/-- A dry pixel of `native_transform` output always has data
(`water = 0` implies the two low bits are clear). -/
lemma native_transform_dry_some (w : Nat)
    (h : (StatsWofs.native_transform w).dry = true) :
    (StatsWofs.native_transform w).some = true := by
  simp only [StatsWofs.native_transform, decide_eq_true_eq] at h ⊢
  subst h
  decide

/-- A fused layer of transformed observations with no data at a pixel is
neither wet nor dry at that pixel. -/
lemma fused_no_some_no_wetdry (ws : List Nat)
    (h : (StatsWofs.fuser (ws.map StatsWofs.native_transform)).some = false) :
    (StatsWofs.fuser (ws.map StatsWofs.native_transform)).wet = false ∧
      (StatsWofs.fuser (ws.map StatsWofs.native_transform)).dry = false := by
  have hsome : (ws.map StatsWofs.native_transform).any (fun l => l.some) = false := by
    simpa only [StatsWofs.fuser, or_fuser] using h
  have hwet : (ws.map StatsWofs.native_transform).any (fun l => l.wet) = false := by
    rw [List.any_eq_false] at hsome ⊢
    intro l hl hlw
    obtain ⟨w, _, rfl⟩ := List.mem_map.mp hl
    exact hsome _ hl (native_transform_wet_some w hlw)
  have hdry : (ws.map StatsWofs.native_transform).any (fun l => l.dry) = false := by
    rw [List.any_eq_false] at hsome ⊢
    intro l hl hld
    obtain ⟨w, _, rfl⟩ := List.mem_map.mp hl
    exact hsome _ hl (native_transform_dry_some w hld)
  simp [StatsWofs.fuser, or_fuser, hwet, hdry]

/-- A sum of boolean indicators over a stack all of whose entries are false
is zero. -/
lemma sum_map_bool_zero (stack : List WoLayer) (f : WoLayer → Bool)
    (h : ∀ l ∈ stack, f l = false) :
    (stack.map fun l => boolToInt (f l)).sum = 0 := by
  induction stack with
  | nil => simp
  | cons a t ih =>
      simp only [List.map_cons, List.sum_cons]
      rw [h a (List.mem_cons_self a t),
        ih (fun l hl => h l (List.mem_cons_of_mem a hl))]
      simp [boolToInt]

/-- The int16 wrap keeps every value inside the int16 range. -/
lemma wrap16_range (n : Int) : -32768 ≤ wrap16 n ∧ wrap16 n ≤ 32767 := by
  unfold wrap16
  omega

/-- `wrap16` fixes zero. -/
lemma wrap16_zero : wrap16 0 = 0 := by decide

/-- A list of integers all zero sums to zero. -/
lemma sum_eq_zero_int {l : List Int} (h : ∀ x ∈ l, x = 0) : l.sum = 0 := by
  induction l with
  | nil => simp
  | cons a t ih =>
      rw [List.sum_cons, h a (List.mem_cons_self a t),
        ih (fun x hx => h x (List.mem_cons_of_mem a hx))]
      rfl

/-- `wrap16` fixes the sentinel `-999`. -/
lemma wrap16_m999 : wrap16 (-999) = -999 := by decide

/-- `keep_good_only` with the `-999` sentinel keeps int16-ranged values in
the int16 range. -/
lemma keep_good_only_range (x : Int) (ok : Bool)
    (hx : -32768 ≤ x ∧ x ≤ 32767) :
    -32768 ≤ keep_good_only x ok (-999) ∧ keep_good_only x ok (-999) ≤ 32767 := by
  cases ok <;> simp [keep_good_only] <;> omega

/-- Re-inserting the `-999` sentinel keeps int16-ranged values in range. -/
lemma ite_nodata_range (b : Bool) (v : Int) (hv : -32768 ≤ v ∧ v ≤ 32767) :
    -32768 ≤ (if b then (-999 : Int) else v) ∧
      (if b then (-999 : Int) else v) ≤ 32767 := by
  cases b <;> simp <;> omega

/-! ### Claim theorems -/

/-- C2 (counterexample): `StatsWofs.fuser` is not grouping-invariant. For a
day holding a wet, a dry and another wet observation, fusing all three at
once yields a conflict pixel (neither wet nor dry), while fusing the first
two, fusing the third alone, and then fusing the two fused results yields a
wet pixel. -/
theorem fuser_grouping_counterexample :
    StatsWofs.fuser
        [StatsWofs.native_transform 128, StatsWofs.native_transform 0,
          StatsWofs.native_transform 128] ≠
      StatsWofs.fuser
        [StatsWofs.fuser
            [StatsWofs.native_transform 128, StatsWofs.native_transform 0],
          StatsWofs.fuser [StatsWofs.native_transform 128]] := by
  decide

/-- C2 (amended): `StatsWofs.fuser` is commutative — fusing the observations
of one acquisition day in any order (any permutation of the group) yields
the same output — but it is not grouping-invariant: fusing subgroups first
and then fusing the fused results can change the result, because the
wet/dry exclusivity step is applied after the OR merge. -/
theorem fuser_perm_invariant {xs ys : List WoLayer} (h : xs.Perm ys) :
    StatsWofs.fuser xs = StatsWofs.fuser ys := by
  simp only [StatsWofs.fuser, or_fuser_perm_invariant h]

/-- Witness for `fuser_perm_invariant` at a concrete two-observation day. -/
theorem fuser_perm_invariant_witness :
    ([StatsWofs.native_transform 128, StatsWofs.native_transform 0]).Perm
        [StatsWofs.native_transform 0, StatsWofs.native_transform 128] ∧
      StatsWofs.fuser [StatsWofs.native_transform 128, StatsWofs.native_transform 0] =
        StatsWofs.fuser [StatsWofs.native_transform 0, StatsWofs.native_transform 128] :=
  ⟨List.Perm.swap _ _ _, fuser_perm_invariant (List.Perm.swap _ _ _)⟩

/-- C9: in the fused dataset the wet, dry and bad flags are mutually
exclusive at every pixel: wet and dry are never both set, a bad pixel is
neither wet nor dry, and the fused flags equal `wet & ~dry & ~bad` /
`dry & ~wet & ~bad` over the OR-merged inputs. -/
theorem fuser_exclusive (xs : List WoLayer) :
    ((StatsWofs.fuser xs).wet && (StatsWofs.fuser xs).dry) = false ∧
    ((StatsWofs.fuser xs).bad = true →
      (StatsWofs.fuser xs).wet = false ∧ (StatsWofs.fuser xs).dry = false) ∧
    (StatsWofs.fuser xs).wet =
      ((or_fuser xs).wet && !(or_fuser xs).dry && !(or_fuser xs).bad) ∧
    (StatsWofs.fuser xs).dry =
      ((or_fuser xs).dry && !(or_fuser xs).wet && !(or_fuser xs).bad) := by
  simp only [StatsWofs.fuser]
  cases (or_fuser xs).wet <;> cases (or_fuser xs).dry <;>
    cases (or_fuser xs).bad <;> simp

/-- Witness for `fuser_exclusive` at a concrete bad observation. -/
theorem fuser_exclusive_witness :
    (StatsWofs.fuser [StatsWofs.native_transform 2]).bad = true ∧
      (StatsWofs.fuser [StatsWofs.native_transform 2]).wet = false ∧
      (StatsWofs.fuser [StatsWofs.native_transform 2]).dry = false :=
  ⟨by decide, (fuser_exclusive [StatsWofs.native_transform 2]).2.1 (by decide)⟩

/-- C8: for every input stack, the band names produced by
`StatsWofs.reduce` and by `StatsWofsFullHistory.reduce` are exactly the
plugin's declared `measurements` — the three bands `count_wet`,
`count_clear`, `frequency` and no others. -/
theorem reduce_band_set (s1 : List WoLayer) (nd : Int) (s2 : List WoSummarySlice) :
    ((StatsWofs.reduce s1).map Prod.fst).Perm StatsWofs.measurements ∧
      ((StatsWofsFullHistory.reduce nd s2).map Prod.fst).Perm
        StatsWofsFullHistory.measurements := by
  constructor
  · simp [StatsWofs.reduce, StatsWofs.measurements]
  · simp only [StatsWofsFullHistory.reduce, StatsWofsFullHistory.measurements,
      List.map_cons, List.map_nil]
    exact List.Perm.swap _ _ _

/-- C1: in both WOfS plugins, a pixel with zero non-missing contributing
observations carries the nodata marker in every output band. For
`StatsWofs.reduce`, a stack of fused layers (each produced by
`StatsWofs.fuser` over `StatsWofs.native_transform` outputs) none of which
has `some` set yields `-999` in `count_wet` and `count_clear` and NaN in
`frequency`. For `StatsWofsFullHistory.reduce`, a stack whose `count_clear`
slices all equal the nodata value `-999` does the same. -/
theorem wofs_reduce_nodata_invariant :
    (∀ stack : List WoLayer,
      (∀ l ∈ stack, ∃ ws : List Nat,
          l = StatsWofs.fuser (ws.map StatsWofs.native_transform)) →
      (∀ l ∈ stack, l.some = false) →
      StatsWofs.reduce stack =
        [("count_wet", Band.i16 (-999)), ("count_clear", Band.i16 (-999)),
          ("frequency", Band.f32 none)]) ∧
    (∀ stack : List WoSummarySlice,
      (∀ s ∈ stack, s.count_clear = -999) →
      StatsWofsFullHistory.reduce (-999) stack =
        [("count_clear", Band.i16 (-999)), ("count_wet", Band.i16 (-999)),
          ("frequency", Band.f32 none)]) := by
  constructor
  · intro stack hf hn
    have hwet : ∀ l ∈ stack, l.wet = false := by
      intro l hl
      obtain ⟨ws, rfl⟩ := hf l hl
      exact (fused_no_some_no_wetdry ws (hn _ hl)).1
    have hdry : ∀ l ∈ stack, l.dry = false := by
      intro l hl
      obtain ⟨ws, rfl⟩ := hf l hl
      exact (fused_no_some_no_wetdry ws (hn _ hl)).2
    have hcw : StatsWofs.count_wet stack = 0 := by
      unfold StatsWofs.count_wet
      rw [sum_map_bool_zero stack _ hwet, wrap16_zero]
    have hcd : StatsWofs.count_dry stack = 0 := by
      unfold StatsWofs.count_dry
      rw [sum_map_bool_zero stack _ hdry, wrap16_zero]
    have hcs : StatsWofs.count_some stack = 0 := by
      unfold StatsWofs.count_some
      rw [sum_map_bool_zero stack _ hn, wrap16_zero]
    have hcc : StatsWofs.count_clear stack = 0 := by
      unfold StatsWofs.count_clear
      rw [hcw, hcd]
      decide
    have hok : StatsWofs.is_ok stack = false := by
      unfold StatsWofs.is_ok
      rw [hcs]
      decide
    simp [StatsWofs.reduce, keep_good_only, hok, StatsWofs.frequency, safe_div,
      hcw, hcc]
  · intro stack h
    have hmiss : StatsWofsFullHistory.missing (-999) stack = true := by
      unfold StatsWofsFullHistory.missing
      rw [List.all_eq_true]
      intro s hs
      simp [h s hs]
    have hcc : StatsWofsFullHistory.cc (-999) stack = 0 := by
      unfold StatsWofsFullHistory.cc
      rw [sum_eq_zero_int, wrap16_zero]
      intro x hx
      obtain ⟨s, hs, rfl⟩ := List.mem_map.mp hx
      rw [if_pos (by rw [h s hs, wrap16_m999]), wrap16_zero]
    have hfreq : StatsWofsFullHistory.frequency (-999) stack = none := by
      unfold StatsWofsFullHistory.frequency
      rw [hcc]
      simp
    simp [StatsWofsFullHistory.reduce, hmiss, hfreq, wrap16_m999]

/-- Witness for `wofs_reduce_nodata_invariant` at one fused bad-only layer
and one all-nodata summary slice. -/
theorem wofs_reduce_nodata_invariant_witness :
    StatsWofs.reduce [StatsWofs.fuser [StatsWofs.native_transform 2]] =
        [("count_wet", Band.i16 (-999)), ("count_clear", Band.i16 (-999)),
          ("frequency", Band.f32 none)] ∧
      StatsWofsFullHistory.reduce (-999)
          [{ count_wet := -999, count_clear := -999 }] =
        [("count_clear", Band.i16 (-999)), ("count_wet", Band.i16 (-999)),
          ("frequency", Band.f32 none)] :=
  ⟨wofs_reduce_nodata_invariant.1 [StatsWofs.fuser [StatsWofs.native_transform 2]]
      (by
        intro l hl
        exact ⟨[2], by rw [List.mem_singleton.mp hl]; rfl⟩)
      (by decide),
    wofs_reduce_nodata_invariant.2 [{ count_wet := -999, count_clear := -999 }]
      (by decide)⟩

/-- C4: in both plugins the `frequency` band is NaN exactly where the
summed clear-count denominator is zero and is the wet/clear ratio
elsewhere, while both count bands stay in the signed 16-bit range with the
sentinel `-999` as nodata. -/
theorem wofs_frequency_and_count_types :
    (∀ stack : List WoLayer,
      (StatsWofs.reduce stack).lookup "frequency" =
          some (Band.f32
            (if StatsWofs.count_clear stack = 0 then none
             else some ((StatsWofs.count_wet stack : ℚ) /
               (StatsWofs.count_clear stack : ℚ)))) ∧
      (StatsWofs.reduce stack).lookup "count_wet" =
          some (Band.i16
            (keep_good_only (StatsWofs.count_wet stack) (StatsWofs.is_ok stack) (-999))) ∧
      (StatsWofs.reduce stack).lookup "count_clear" =
          some (Band.i16
            (keep_good_only (StatsWofs.count_clear stack) (StatsWofs.is_ok stack) (-999))) ∧
      (-32768 ≤ keep_good_only (StatsWofs.count_wet stack) (StatsWofs.is_ok stack) (-999) ∧
        keep_good_only (StatsWofs.count_wet stack) (StatsWofs.is_ok stack) (-999) ≤ 32767) ∧
      (-32768 ≤ keep_good_only (StatsWofs.count_clear stack) (StatsWofs.is_ok stack) (-999) ∧
        keep_good_only (StatsWofs.count_clear stack) (StatsWofs.is_ok stack) (-999) ≤ 32767)) ∧
    (∀ stack : List WoSummarySlice,
      (StatsWofsFullHistory.reduce (-999) stack).lookup "frequency" =
          some (Band.f32
            (if StatsWofsFullHistory.cc (-999) stack = 0 then none
             else some ((StatsWofsFullHistory.cw (-999) stack : ℚ) /
               (StatsWofsFullHistory.cc (-999) stack : ℚ)))) ∧
      (StatsWofsFullHistory.reduce (-999) stack).lookup "count_wet" =
          some (Band.i16 (if StatsWofsFullHistory.missing (-999) stack then -999
            else StatsWofsFullHistory.cw (-999) stack)) ∧
      (StatsWofsFullHistory.reduce (-999) stack).lookup "count_clear" =
          some (Band.i16 (if StatsWofsFullHistory.missing (-999) stack then -999
            else StatsWofsFullHistory.cc (-999) stack)) ∧
      (-32768 ≤ (if StatsWofsFullHistory.missing (-999) stack then (-999 : Int)
            else StatsWofsFullHistory.cw (-999) stack) ∧
        (if StatsWofsFullHistory.missing (-999) stack then (-999 : Int)
            else StatsWofsFullHistory.cw (-999) stack) ≤ 32767) ∧
      (-32768 ≤ (if StatsWofsFullHistory.missing (-999) stack then (-999 : Int)
            else StatsWofsFullHistory.cc (-999) stack) ∧
        (if StatsWofsFullHistory.missing (-999) stack then (-999 : Int)
            else StatsWofsFullHistory.cc (-999) stack) ≤ 32767)) := by
  constructor
  · intro stack
    refine ⟨rfl, rfl, rfl, ?_, ?_⟩
    · exact keep_good_only_range _ _
        (by unfold StatsWofs.count_wet; exact wrap16_range _)
    · exact keep_good_only_range _ _
        (by unfold StatsWofs.count_clear; exact wrap16_range _)
  · intro stack
    refine ⟨rfl, rfl, rfl, ?_, ?_⟩
    · exact ite_nodata_range _ _
        (by unfold StatsWofsFullHistory.cw; exact wrap16_range _)
    · exact ite_nodata_range _ _
        (by unfold StatsWofsFullHistory.cc; exact wrap16_range _)

/-- C3: with overwrite off (`check_exists = true`), a task whose output
already exists is reported `skipped=True` and no write occurs; with
overwrite on (`check_exists = false`), the result has `skipped=False` even
when the output exists (and a write occurs); and in dry-run mode with
overwrite off (`check_s3 = true`), the per-task procedure returns
`TaskResult(task, uri, skipped = (exists is True))`. -/
theorem run_pq_skip_semantics :
    (∀ (sink : Sink) (task : Nat), sink.exists_check task = true →
      (process_one_task true sink task).1.skipped = true ∧
        (process_one_task true sink task).2 = false) ∧
    (∀ (sink : Sink) (task : Nat),
      (process_one_task false sink task).1.skipped = false ∧
        (process_one_task false sink task).2 = true) ∧
    (∀ (sink : Sink) (task : Nat),
      dry_run_proc false sink true task =
        { task := task, uri := sink.uri task,
          skipped := sink.exists_check task }) := by
  refine ⟨?_, ?_, ?_⟩
  · intro sink task h
    simp [process_one_task, h]
  · intro sink task
    simp [process_one_task]
  · intro sink task
    cases h : sink.exists_check task <;> simp [dry_run_proc, h]

/-- Witness for `run_pq_skip_semantics`: a sink whose output exists. -/
theorem run_pq_skip_semantics_witness :
    (process_one_task true ⟨fun _ => "s3://b/k", fun _ => true⟩ 0).1.skipped = true ∧
      (process_one_task true ⟨fun _ => "s3://b/k", fun _ => true⟩ 0).2 = false :=
  run_pq_skip_semantics.1 ⟨fun _ => "s3://b/k", fun _ => true⟩ 0 rfl

/-- C5: supplying both `--year` and `--temporal-range` makes `save_tasks`
exit with code 1 before the `Datacube` catalog connection is constructed
and before `SaveTasks.save` runs. -/
theorem save_tasks_conflicting_options (env : SaveTasksEnv) (inp : SaveTasksInput)
    (hy : inp.year.isSome = true) (ht : inp.temporal_range.isSome = true) :
    (save_tasks env inp).exitCode = some 1 ∧
    (save_tasks env inp).datacubeConstructed = false ∧
    (save_tasks env inp).saveCalled = false := by
  unfold save_tasks
  cases h1 : inp.dataset_filter.any (fun s => !env.jsonParseOk s) <;>
    simp [h1, hy, ht]

/-- Witness for `save_tasks_conflicting_options` at a concrete invocation. -/
theorem save_tasks_conflicting_options_witness :
    (save_tasks ⟨fun _ => true, fun _ => true, true, false, true⟩
        ⟨some 2019, some "2019--P1Y", none, none, none, none⟩).exitCode = some 1 ∧
      (save_tasks ⟨fun _ => true, fun _ => true, true, false, true⟩
          ⟨some 2019, some "2019--P1Y", none, none, none, none⟩).datacubeConstructed
        = false ∧
      (save_tasks ⟨fun _ => true, fun _ => true, true, false, true⟩
          ⟨some 2019, some "2019--P1Y", none, none, none, none⟩).saveCalled = false :=
  save_tasks_conflicting_options _ _ rfl rfl

/-- C6: run-pq distinguishes failure classes by exit code: a failing
selector parse exits with code 1 before the sink is created and before any
task runs; a failed credential verification against an s3 location exits
with code 2 before any task runs; the two codes are distinct. -/
theorem run_pq_exit_codes :
    (∀ (selectors : List String) (parse : List String → Except String (List Nat))
        (allTiles : List Nat) (loc : String) (credsOk : Bool) (e : String),
      selectors ≠ [] → parse selectors = Except.error e →
      (run_pq selectors parse allTiles loc credsOk).exitCode = some 1 ∧
        (run_pq selectors parse allTiles loc credsOk).sinkCreated = false ∧
        (run_pq selectors parse allTiles loc credsOk).anyTaskProcessed = false) ∧
    (∀ (selectors : List String) (parse : List String → Except String (List Nat))
        (allTiles : List Nat) (loc : String) (credsOk : Bool),
      (∀ e, parse selectors ≠ Except.error e) →
      startswith loc "s3:" = true → credsOk = false →
      (run_pq selectors parse allTiles loc credsOk).exitCode = some 2 ∧
        (run_pq selectors parse allTiles loc credsOk).anyTaskProcessed = false) ∧
    (some 1 : Option Nat) ≠ some 2 := by
  refine ⟨?_, ?_, by simp⟩
  · intro selectors parse allTiles loc credsOk e hne hp
    simp [run_pq, hne, hp]
  · intro selectors parse allTiles loc credsOk hp hs3 hcr
    unfold run_pq
    by_cases hsel : selectors = []
    · simp [hsel, hs3, hcr]
    · cases hps : parse selectors with
      | error e => exact absurd hps (hp e)
      | ok ts => simp [hsel, hps, hs3, hcr]

/-- Witness for `run_pq_exit_codes`: a selector list that fails to parse. -/
theorem run_pq_exit_codes_witness :
    (run_pq ["bogus"] (fun _ => Except.error "parse") [0, 1] "s3://b/p" true).exitCode
        = some 1 ∧
      (run_pq ["bogus"] (fun _ => Except.error "parse") [0, 1] "s3://b/p" true).sinkCreated
        = false ∧
      (run_pq ["bogus"] (fun _ => Except.error "parse") [0, 1] "s3://b/p" true).anyTaskProcessed
        = false :=
  run_pq_exit_codes.1 ["bogus"] (fun _ => Except.error "parse") [0, 1] "s3://b/p"
    true "parse" (by simp) rfl

/-- C7: an empty selector list selects the catalog's full tile list, in
catalog order. -/
theorem run_pq_empty_selector_all_tasks
    (parse : List String → Except String (List Nat)) (allTiles : List Nat)
    (loc : String) (credsOk : Bool)
    (h : (startswith loc "s3:" && !credsOk) = false) :
    (run_pq [] parse allTiles loc credsOk).tasksSelected = allTiles ∧
    (run_pq [] parse allTiles loc credsOk).exitCode = none := by
  simp [run_pq, h]

/-- Witness for `run_pq_empty_selector_all_tasks` on a three-task catalog. -/
theorem run_pq_empty_selector_all_tasks_witness :
    (run_pq [] (fun _ => Except.error "x") [0, 1, 2] "file:///out" true).tasksSelected
        = [0, 1, 2] ∧
      (run_pq [] (fun _ => Except.error "x") [0, 1, 2] "file:///out" true).exitCode
        = none :=
  run_pq_empty_selector_all_tasks (fun _ => Except.error "x") [0, 1, 2]
    "file:///out" true (by decide)

/-- C10: supplying both `--gqa` and `--usgs-collection-category` is not
rejected: whenever the invocation reaches the save step, it proceeds with
only the collection-category predicate — the gqa predicate is silently
discarded. -/
theorem save_tasks_gqa_usgs_predicate (env : SaveTasksEnv) (inp : SaveTasksInput)
    (hg : inp.gqa.isSome = true)
    (hu : inp.usgs_collection_category.isSome = true)
    (h1 : inp.dataset_filter.any (fun s => !env.jsonParseOk s) = false)
    (h2 : (inp.temporal_range.isSome && inp.year.isSome) = false)
    (h3 : inp.temporal_range.any (fun t => !env.dtrParseOk t) = false)
    (h4 : inp.frequency.any (fun f => !validFrequency f) = false)
    (h5 : env.saveTasksCtorOk = true) :
    (save_tasks env inp).exitCode ≠ some 1 ∧
    (save_tasks env inp).saveCalled = true ∧
    (save_tasks env inp).predicateUsed = some PredChoice.collectionCategoryPred := by
  unfold save_tasks
  simp only [h1, h2, h3, h4, h5]
  cases env.saveRaises <;> cases env.saveOk <;> simp [hu]

/-- Witness for `save_tasks_gqa_usgs_predicate` at a concrete invocation
supplying both filters. -/
theorem save_tasks_gqa_usgs_predicate_witness :
    (save_tasks ⟨fun _ => true, fun _ => true, true, false, true⟩
        ⟨none, none, none, none, some 1, some "T1"⟩).exitCode ≠ some 1 ∧
      (save_tasks ⟨fun _ => true, fun _ => true, true, false, true⟩
          ⟨none, none, none, none, some 1, some "T1"⟩).saveCalled = true ∧
      (save_tasks ⟨fun _ => true, fun _ => true, true, false, true⟩
          ⟨none, none, none, none, some 1, some "T1"⟩).predicateUsed
        = some PredChoice.collectionCategoryPred :=
  save_tasks_gqa_usgs_predicate _ _ rfl rfl rfl rfl rfl rfl rfl
